import Mathlib

/-!
Shallow embedding of the gosling handshake core
(src/source/gosling/src/gosling.rs and
src/source/gosling/crates/gosling/src/endpoint_server.rs).

Conventions of the embedding:
* Rust `Vec<u8>`, `[u8; N]`, `&[u8]` become `List Nat` (each element a byte
  value; byte-ness appears as `b < 256` hypotheses where a proof needs it).
* Rust `String` / `&str` values that take part in the protocol (request
  names, service-id strings, the version string) also become `List Nat`:
  the UTF-8 bytes of the string.  `str::is_ascii` becomes
  `List.all (· ≤ 127)`.
* Fallible Rust functions return `Option` / `Except`.
* Randomness (`OsRng.fill_bytes`, key generation) is passed in explicitly:
  a function that draws a fresh cookie or key takes it as an argument.
* The honk_rpc session layer and the tor_crypto module belong to this
  repository but are not present under src/; the definitions below that
  stand in for them are modelled from the spec and each carries a doc
  comment saying so.
-/

namespace Gosling

/-- Embeds `u8::is_ascii` on one byte: the byte is at most 0x7f. -/
def isAsciiNat (b : Nat) : Bool := b ≤ 127

/-- Embeds `str::is_ascii` on the UTF-8 bytes of a string. -/
def isAsciiStr (s : List Nat) : Bool := s.all isAsciiNat

/-- One lowercase hex digit: `0-9` then `a-f`, as in `data_encoding::HEXLOWER`. -/
def hexDigitLower (n : Nat) : Nat :=
  if n < 10 then 48 + n else 87 + n

/-- The two lowercase hex digits of one byte, high nibble first. -/
def byteToHexLower (b : Nat) : List Nat :=
  [hexDigitLower (b / 16), hexDigitLower (b % 16)]

/-- Embeds `HEXLOWER.encode` on a byte string, then `as_bytes`: the concatenation of
the two-digit lowercase hex encodings of the bytes. -/
def hexLowerEncode (bytes : List Nat) : List Nat :=
  bytes.flatMap byteToHexLower

/-- Embeds `CLIENT_COOKIE_SIZE` from gosling.rs. -/
def CLIENT_COOKIE_SIZE : Nat := 32

/-- Embeds `SERVER_COOKIE_SIZE` from gosling.rs. -/
def SERVER_COOKIE_SIZE : Nat := 32

/-- Embeds `GOSLING_VERSION = "0.0.0.1"` from gosling.rs, as UTF-8 bytes. -/
def GOSLING_VERSION : List Nat := [48, 46, 48, 46, 48, 46, 49]

/-- The length of a v3 onion service id string ("56-character textual form"). -/
def V3_SERVICE_ID_LENGTH : Nat := 56

/-- A `V3OnionServiceId`: the bytes of its 56-character textual form
(`to_string` is the identity on this representation). -/
abbrev V3OnionServiceId := List Nat

/-- Embeds `enum DomainSeparator` from gosling.rs. -/
inductive DomainSeparator where
  | goslingIdentity
  | goslingEndpoint
deriving DecidableEq

/-- Embeds `impl From<DomainSeparator> for &[u8]` from gosling.rs:
the UTF-8 bytes of "gosling-identity" / "gosling-endpoint". -/
def DomainSeparator.bytes : DomainSeparator → List Nat
  | .goslingIdentity =>
      [103, 111, 115, 108, 105, 110, 103, 45, 105, 100, 101, 110, 116, 105, 116, 121]
  | .goslingEndpoint =>
      [103, 111, 115, 108, 105, 110, 103, 45, 101, 110, 100, 112, 111, 105, 110, 116]

/-- Embeds `fn build_client_proof` from gosling.rs (lines 68-91): `ensure!(request.is_ascii())`
then successive `extend_from_slice` / `push(0u8)` calls on an initially
empty byte vector.  The `Result` return becomes `Option`. -/
def build_client_proof
    (domain_separator : DomainSeparator)
    (request : List Nat)
    (client_service_id : V3OnionServiceId)
    (server_service_id : V3OnionServiceId)
    (client_cookie : List Nat)
    (server_cookie : List Nat) : Option (List Nat) :=
  if isAsciiStr request then
    some (domain_separator.bytes ++ [0] ++ request ++ [0]
      ++ client_service_id ++ [0] ++ server_service_id ++ [0]
      ++ hexLowerEncode client_cookie ++ [0] ++ hexLowerEncode server_cookie)
  else
    none

end Gosling

namespace Gosling

/-! Helper lemmas about the hex encoding, used for the injectivity claim. -/

theorem hexLowerEncode_length (bytes : List Nat) :
    (hexLowerEncode bytes).length = 2 * bytes.length := by
  induction bytes with
  | nil => rfl
  | cons b rest ih =>
      simp [hexLowerEncode, byteToHexLower, List.flatMap_cons] at *
      omega

theorem hexDigitLower_inj {a b : Nat} (ha : a < 16) (hb : b < 16)
    (h : hexDigitLower a = hexDigitLower b) : a = b := by
  have key : ∀ x < 16, ∀ y < 16, hexDigitLower x = hexDigitLower y → x = y := by decide
  exact key a ha b hb h

theorem byteToHexLower_inj {a b : Nat} (ha : a < 256) (hb : b < 256)
    (h : byteToHexLower a = byteToHexLower b) : a = b := by
  unfold byteToHexLower at h
  have h1 : hexDigitLower (a / 16) = hexDigitLower (b / 16) := by
    simpa using congrArg (fun l => l.headI) h
  have h2 : hexDigitLower (a % 16) = hexDigitLower (b % 16) := by
    simpa using congrArg (fun l => l.getLastI) h
  have hda : a / 16 < 16 := by omega
  have hdb : b / 16 < 16 := by omega
  have hma : a % 16 < 16 := by omega
  have hmb : b % 16 < 16 := by omega
  have e1 : a / 16 = b / 16 := hexDigitLower_inj hda hdb h1
  have e2 : a % 16 = b % 16 := hexDigitLower_inj hma hmb h2
  omega

theorem hexLowerEncode_inj {xs ys : List Nat}
    (hx : ∀ b ∈ xs, b < 256) (hy : ∀ b ∈ ys, b < 256)
    (h : hexLowerEncode xs = hexLowerEncode ys) : xs = ys := by
  induction xs generalizing ys with
  | nil =>
      cases ys with
      | nil => rfl
      | cons y t => simp [hexLowerEncode, byteToHexLower] at h
  | cons x t ih =>
      cases ys with
      | nil => simp [hexLowerEncode, byteToHexLower] at h
      | cons y s =>
          simp only [hexLowerEncode, List.flatMap_cons] at h
          have hlen : (byteToHexLower x).length = (byteToHexLower y).length := by
            simp [byteToHexLower]
          obtain ⟨hhead, htail⟩ := List.append_inj h hlen
          have hx0 : x < 256 := hx x (by simp)
          have hy0 : y < 256 := hy y (by simp)
          have : x = y := byteToHexLower_inj hx0 hy0 hhead
          subst this
          have : t = s := by
            apply ih (fun b hb => hx b (by simp [hb]))
              (fun b hb => hy b (by simp [hb]))
            exact htail
          simp [this]

end Gosling

namespace Gosling

/-! ## Spec-modelled cryptographic primitives

The `tor_crypto` module is declared by src/source/gosling/src/lib.rs
(`mod tor_crypto;`) but its file is not under src/, so the key and
signature types are modelled from the spec (spec.md section 3). -/

/-- Embeds `ED25519_SIGNATURE_SIZE` (spec section 6: ed25519 signature = 64 bytes). -/
def ED25519_SIGNATURE_SIZE : Nat := 64

/-- Embeds `X25519_PUBLIC_KEY_SIZE` (spec section 6: x25519 public key = 32 bytes). -/
def X25519_PUBLIC_KEY_SIZE : Nat := 32

/-- Modelled from the spec: an ed25519 private signing key (`Ed25519PrivateKey`
from the missing tor_crypto module), as its bytes. -/
abbrev Ed25519PrivateKey := List Nat

/-- Modelled from the spec: an ed25519 verifying key (`Ed25519PublicKey`
from the missing tor_crypto module), as its bytes. -/
abbrev Ed25519PublicKey := List Nat

/-- Modelled from the spec: an x25519 private key, as its bytes. -/
abbrev X25519PrivateKey := List Nat

/-- Modelled from the spec: an x25519 public key, as its bytes. -/
abbrev X25519PublicKey := List Nat

/-- Modelled from the spec: an ed25519 signature is its 64-byte wire form
(`Ed25519Signature` from the missing tor_crypto module). -/
abbrev Ed25519Signature := List Nat

/-- One character of the base32 alphabet used by onion addresses
(`a`..`z` then `2`..`7`). -/
def base32Char (n : Nat) : Nat :=
  if n < 26 then 97 + n else 50 + (n - 26)

/-- Whether one byte is a base32 character as produced by `base32Char`. -/
def isBase32Byte (c : Nat) : Bool :=
  (97 ≤ c && c ≤ 122) || (50 ≤ c && c ≤ 55)

/-- Modelled from the spec: validity of the 56-character textual form of a
v3 onion service id ("ServiceId: the 56-character textual form of a v3
onion public key"). -/
def isValidServiceIdString (s : List Nat) : Bool :=
  s.length == V3_SERVICE_ID_LENGTH && s.all isBase32Byte

/-- Modelled from the spec: `Ed25519PublicKey::from_private_key` from the
missing tor_crypto module; a deterministic derivation of the verifying key
from the signing key. -/
def Ed25519PublicKey.from_private_key (k : Ed25519PrivateKey) : Ed25519PublicKey :=
  (List.range V3_SERVICE_ID_LENGTH).map (fun i => base32Char (k.getD i 0 % 32))

/-- Modelled from the spec: `V3OnionServiceId::from_public_key` from the
missing tor_crypto module ("ServiceId ... Derivable from a private signing
key").  In this model the verifying key is carried in textual form, so the
derivation is the identity. -/
def V3OnionServiceId.from_public_key (k : Ed25519PublicKey) : V3OnionServiceId := k

/-- Modelled from the spec: `V3OnionServiceId::from_private_key` from the
missing tor_crypto module. -/
def V3OnionServiceId.from_private_key (k : Ed25519PrivateKey) : V3OnionServiceId :=
  V3OnionServiceId.from_public_key (Ed25519PublicKey.from_private_key k)

/-- Modelled from the spec: `V3OnionServiceId::from_string` from the missing
tor_crypto module; parses and validates the 56-character textual form. -/
def V3OnionServiceId.from_string (s : List Nat) : Option V3OnionServiceId :=
  if isValidServiceIdString s then some s else none

/-- Modelled from the spec: `Ed25519PublicKey::from_service_id` from the
missing tor_crypto module ("verification requires the matching
VerifyingKey", derivable from the supplied client ServiceId). -/
def Ed25519PublicKey.from_service_id (s : V3OnionServiceId) : Option Ed25519PublicKey :=
  if isValidServiceIdString s then some s else none

/-- Modelled from the spec: the deterministic 64-byte signature the key
behind `pub` produces on `msg`.  Verification recomputes these bytes, which
gives the spec's honest-signer round-trip law. -/
def mkEd25519Sig (pk : Ed25519PublicKey) (msg : List Nat) : List Nat :=
  (List.range ED25519_SIGNATURE_SIZE).map
    (fun i => (pk.getD i 0 + msg.getD i 0 + msg.length) % 256)

/-- Modelled from the spec: `Ed25519PrivateKey::sign_message`. -/
def Ed25519PrivateKey.sign_message (k : Ed25519PrivateKey) (msg : List Nat) : Ed25519Signature :=
  mkEd25519Sig (Ed25519PublicKey.from_private_key k) msg

/-- Modelled from the spec: `Ed25519Signature::from_raw`, which accepts
exactly the 64-byte signatures. -/
def Ed25519Signature.from_raw (b : List Nat) : Option Ed25519Signature :=
  if b.length == ED25519_SIGNATURE_SIZE then some b else none

/-- Modelled from the spec: `Ed25519Signature::verify`. -/
def Ed25519Signature.verify (sig : Ed25519Signature) (msg : List Nat)
    (pk : Ed25519PublicKey) : Bool :=
  sig == mkEd25519Sig pk msg

/-- Modelled from the spec: `X25519PublicKey::from_private_key`
(32-byte public half). -/
def X25519PublicKey.from_private_key (k : X25519PrivateKey) : X25519PublicKey :=
  (List.range X25519_PUBLIC_KEY_SIZE).map (fun i => k.getD i 0 % 256)

/-- Modelled from the spec: the deterministic signature bytes for the
x25519-via-ed25519 scheme. -/
def mkX25519Sig (pk : X25519PublicKey) (msg : List Nat) : List Nat :=
  (List.range ED25519_SIGNATURE_SIZE).map
    (fun i => (pk.getD i 0 + msg.getD i 0 + 2 * msg.length) % 256)

/-- Modelled from the spec: `X25519PrivateKey::sign_message`, which returns
the signature together with the ed25519 sign bit (spec section 9:
"a single bit that must be carried alongside the signature"). -/
def X25519PrivateKey.sign_message (k : X25519PrivateKey) (msg : List Nat) :
    List Nat × Nat :=
  (mkX25519Sig (X25519PublicKey.from_private_key k) msg, 0)

/-- Modelled from the spec: `Ed25519Signature::verify_x25519`
("the x25519-via-ed25519 signature over the textual client ServiceId
verifies under (client_authorization_key, signbit)"). -/
def Ed25519Signature.verify_x25519 (sig : List Nat) (msg : List Nat)
    (pk : X25519PublicKey) (signbit : Nat) : Bool :=
  sig == mkX25519Sig pk msg && signbit == 0

end Gosling

namespace Gosling

/-! ## Spec-modelled honk_rpc session vocabulary

The `honk_rpc` module is declared by src/source/gosling/src/lib.rs
(`mod honk_rpc;`) but its file is not under src/; the types below are
modelled from spec.md section 6 ("RPC session interface consumed by the
core"). -/

/-- Modelled from the spec: a request cookie issued by `client_call`. -/
abbrev RequestCookie := Nat

/-- Modelled from the spec: honk_rpc `ErrorCode`: `Success` for a
successful reply and `Runtime(code)` for an application runtime error. -/
inductive ErrorCode where
  | success
  | runtime (code : Int)
deriving DecidableEq

/-- The BSON binary subtype (the code only ever accepts `Generic`). -/
inductive BinarySubtype where
  | generic
  | other
deriving DecidableEq

/-- The fragment of BSON the handshake messages use. -/
inductive Bson where
  | string (s : List Nat)
  | boolean (b : Bool)
  | binary (subtype : BinarySubtype) (bytes : List Nat)
  | document (elems : List (String × Bson))

/-- A BSON document: its fields in order. -/
abbrev BsonDocument := List (String × Bson)

/-- Embeds `Document::remove(key)` as used on the freshly received `args` document:
the value at the first occurrence of the key, if any. -/
def docGet (d : BsonDocument) (key : String) : Option Bson :=
  match d with
  | [] => none
  | (k, v) :: rest => if k = key then some v else docGet rest key

/-- Modelled from the spec: one entry of `client_next_response()`:
`{Pending{cookie}, Success{cookie, result}, Error{cookie, error_code}}`. -/
inductive Response where
  | pending (cookie : RequestCookie)
  | error (cookie : RequestCookie) (error_code : ErrorCode)
  | success (cookie : RequestCookie) (result : Bson)

/-- Modelled from the spec: one outbound `client_call(namespace, function,
version, args)`. -/
structure RpcCall where
  ns : String
  func : String
  version : Int
  args : BsonDocument

end Gosling

namespace Gosling

/-- Embeds `enum GoslingError` from gosling.rs (lines 31-43). -/
inductive GoslingError where
  | badVersion
  | requestCookieRequired
  | invalidArg
  | failure
deriving DecidableEq

/-- Embeds `GoslingError as i32`: the enum is `#[repr(i32)]` with no explicit
discriminants, so Rust assigns 0, 1, 2, 3 in declaration order. -/
def GoslingError.code : GoslingError → Int
  | .badVersion => 0
  | .requestCookieRequired => 1
  | .invalidArg => 2
  | .failure => 3

/-- The failure modes of the handshake core visible to these claims.  Each
`bail!` / `ensure!` site of gosling.rs maps onto one constructor. -/
inductive Fault where
  /-- Embeds `ensure!` on the state / the catch-all `bail!("unexpected state ...")`. -/
  | invalidState
  /-- Embeds `ensure!(cookie == ...)`: a response for an unexpected request cookie. -/
  | unexpectedResponse
  /-- Embeds `bail!("rpc error_code: {}")`: the remote answered with an RPC error. -/
  | rpcError (error_code : ErrorCode)
  /-- a reply of the wrong BSON shape or wrong byte length. -/
  | badReply
  /-- Embeds `ensure!(request.is_ascii())` inside `build_client_proof`, and the
  `bail!("invalid signbit")` arm. -/
  | badArgument
  /-- Embeds `bail!("not implemented")`. -/
  | notImplemented
  /-- Embeds `bail!("... with handle {} not found")` / unknown handle. -/
  | unknownHandle
  /-- Embeds `ensure!(self.bootstrap_complete)`. -/
  | notBootstrapped
deriving DecidableEq

/-- Embeds `enum IdentityClientState` from gosling.rs. -/
inductive IdentityClientState where
  | beginHandshake
  | waitingForChallenge
  | waitingForChallengeResponse
  | waitingForChallengeVerification
  | handshakeComplete
deriving DecidableEq

/-- Embeds `enum IdentityClientEvent` from gosling.rs. -/
inductive IdentityClientEvent where
  | challengeReceived
      (identity_service_id : V3OnionServiceId)
      (endpoint_name : List Nat)
      (endpoint_challenge : BsonDocument)
  | handshakeCompleted
      (identity_service_id : V3OnionServiceId)
      (endpoint_service_id : V3OnionServiceId)
      (endpoint_name : List Nat)
      (client_auth_private_key : X25519PrivateKey)

/-- Embeds `struct IdentityClient` from gosling.rs, without the owned RPC session
(the session's I/O is modelled by the `Response` fed to `update` and the
`RpcCall` list it returns). -/
structure IdentityClient where
  server_service_id : V3OnionServiceId
  requested_endpoint : List Nat
  client_service_id : V3OnionServiceId
  client_ed25519_private : Ed25519PrivateKey
  client_x25519_private : X25519PrivateKey
  state : IdentityClientState
  begin_handshake_request_cookie : Option RequestCookie
  server_cookie : Option (List Nat)
  endpoint_challenge_response : Option BsonDocument
  send_response_request_cookie : Option RequestCookie

/-- Embeds `IdentityClient::new` from gosling.rs. -/
def IdentityClient.new
    (server_service_id : V3OnionServiceId)
    (requested_endpoint : List Nat)
    (client_ed25519_private : Ed25519PrivateKey)
    (client_x25519_private : X25519PrivateKey) : IdentityClient :=
  { server_service_id := server_service_id
    requested_endpoint := requested_endpoint
    client_service_id := V3OnionServiceId.from_private_key client_ed25519_private
    client_ed25519_private := client_ed25519_private
    client_x25519_private := client_x25519_private
    state := .beginHandshake
    begin_handshake_request_cookie := none
    server_cookie := none
    endpoint_challenge_response := none
    send_response_request_cookie := none }

/-- The outcome of one `IdentityClient::update` tick: the emitted event (if
any), the successor state, and the RPC calls issued during the tick. -/
structure IdentityClientStep where
  event : Option IdentityClientEvent
  next : IdentityClient
  calls : List RpcCall

/-- Embeds `IdentityClient::update` from gosling.rs (lines 165-318).  `response` is
what `rpc.client_next_response()` yields this tick; `freshCookie` is the
request cookie `client_call` would return; `freshClientCookie` is the
32-byte random draw for the client cookie. -/
def IdentityClient.update (c : IdentityClient) (response : Option Response)
    (freshCookie : RequestCookie) (freshClientCookie : List Nat) :
    Except Fault IdentityClientStep :=
  if c.state = .handshakeComplete then .error .invalidState else
  -- `self.endpoint_challenge_response.take()` in the match scrutinee
  let taken := c.endpoint_challenge_response
  let c := { c with endpoint_challenge_response := none }
  match c.state, c.begin_handshake_request_cookie, c.server_cookie,
      taken, c.send_response_request_cookie with
  | .beginHandshake, none, none, none, none =>
      .ok { event := none
            next := { c with
              state := .waitingForChallenge
              begin_handshake_request_cookie := some freshCookie }
            calls := [{ ns := "gosling_identity", func := "begin_handshake", version := 0
                        args := [("version", .string GOSLING_VERSION),
                                 ("client_identity", .string c.client_service_id),
                                 ("endpoint", .string c.requested_endpoint)] }] }
  | .waitingForChallenge, some bc, none, none, none =>
      match response with
      | none => .ok { event := none, next := c, calls := [] }
      | some (.pending cookie) =>
          if cookie = bc then .ok { event := none, next := c, calls := [] }
          else .error .unexpectedResponse
      | some (.error cookie error_code) =>
          if cookie = bc then .error (.rpcError error_code)
          else .error .unexpectedResponse
      | some (.success cookie result) =>
          if cookie = bc then
            match result with
            | .document d =>
                match docGet d "server_cookie" with
                | some (.binary .generic sc) =>
                    if sc.length = SERVER_COOKIE_SIZE then
                      match docGet d "endpoint_challenge" with
                      | some (.document challenge) =>
                          .ok { event := some (.challengeReceived
                                  c.server_service_id c.requested_endpoint challenge)
                                next := { c with
                                  server_cookie := some sc
                                  state := .waitingForChallengeResponse }
                                calls := [] }
                      | some _ => .error .badReply
                      | none => .error .badReply
                    else .error .badReply
                | some _ => .error .badReply
                | none => .error .badReply
            | _ => .error .badReply
          else .error .unexpectedResponse
  | .waitingForChallengeResponse, some _, some _, none, none =>
      .ok { event := none, next := c, calls := [] }
  | .waitingForChallengeResponse, some _, some sc, some challenge_response, none =>
      let client_cookie := freshClientCookie
      match build_client_proof .goslingIdentity c.requested_endpoint
          c.client_service_id c.server_service_id client_cookie sc with
      | none => .error .badArgument
      | some client_identity_proof =>
          let client_identity_proof_signature :=
            c.client_ed25519_private.sign_message client_identity_proof
          let client_authorization_key :=
            X25519PublicKey.from_private_key c.client_x25519_private
          let signed := c.client_x25519_private.sign_message c.client_service_id
          match signed.2 with
          | 0 =>
              .ok { event := none
                    next := { c with
                      state := .waitingForChallengeVerification
                      send_response_request_cookie := some freshCookie }
                    calls := [{ ns := "gosling_identity", func := "send_response", version := 0
                                args := [("client_cookie", .binary .generic client_cookie),
                                         ("client_identity_proof_signature",
                                            .binary .generic client_identity_proof_signature),
                                         ("client_authorization_key",
                                            .binary .generic client_authorization_key),
                                         ("client_authorization_key_signbit", .boolean false),
                                         ("client_authorization_signature",
                                            .binary .generic signed.1),
                                         ("challenge_response", .document challenge_response)] }] }
          | 1 =>
              .ok { event := none
                    next := { c with
                      state := .waitingForChallengeVerification
                      send_response_request_cookie := some freshCookie }
                    calls := [{ ns := "gosling_identity", func := "send_response", version := 0
                                args := [("client_cookie", .binary .generic client_cookie),
                                         ("client_identity_proof_signature",
                                            .binary .generic client_identity_proof_signature),
                                         ("client_authorization_key",
                                            .binary .generic client_authorization_key),
                                         ("client_authorization_key_signbit", .boolean true),
                                         ("client_authorization_signature",
                                            .binary .generic signed.1),
                                         ("challenge_response", .document challenge_response)] }] }
          | _ => .error .badArgument
  | .waitingForChallengeVerification, some _, some _, none, some rc =>
      match response with
      | none => .ok { event := none, next := c, calls := [] }
      | some (.pending cookie) =>
          if cookie = rc then .ok { event := none, next := c, calls := [] }
          else .error .unexpectedResponse
      | some (.error cookie error_code) =>
          if cookie = rc then .error (.rpcError error_code)
          else .error .unexpectedResponse
      | some (.success cookie result) =>
          if cookie = rc then
            match result with
            | .string s =>
                match V3OnionServiceId.from_string s with
                | some endpoint_service_id =>
                    .ok { event := some (.handshakeCompleted
                            c.server_service_id endpoint_service_id
                            c.requested_endpoint c.client_x25519_private)
                          next := { c with state := .handshakeComplete }
                          calls := [] }
                | none => .error .badReply
            | _ => .error .badReply
          else .error .unexpectedResponse
  | _, _, _, _, _ => .error .invalidState

/-- Embeds `IdentityClient::send_response` from gosling.rs (lines 320-324). -/
def IdentityClient.send_response (c : IdentityClient)
    (challenge_response : BsonDocument) : Except Fault IdentityClient :=
  if c.state = .waitingForChallengeResponse then
    .ok { c with endpoint_challenge_response := some challenge_response }
  else .error .invalidState

end Gosling

namespace Gosling

/-- Embeds `enum IdentityServerState` from gosling.rs. -/
inductive IdentityServerState where
  | waitingForBeginHandshake
  | gettingChallenge
  | challengeReady
  | waitingForSendResponse
  | gettingChallengeVerification
  | challengeVerificationReady
  | challengeVerificationResponseSent
  | handshakeComplete
deriving DecidableEq

/-- Embeds `enum IdentityServerEvent` from gosling.rs. -/
inductive IdentityServerEvent where
  | endpointRequestReceived
      (client_service_id : V3OnionServiceId)
      (requested_endpoint : List Nat)
  | challengeResponseReceived
      (challenge_response : BsonDocument)
  | handshakeCompleted
      (endpoint_private_key : Ed25519PrivateKey)
      (endpoint_name : List Nat)
      (client_service_id : V3OnionServiceId)
      (client_auth_public_key : X25519PublicKey)
  | handshakeRejected
      (client_allowed : Bool)
      (client_requested_endpoint_valid : Bool)
      (client_proof_signature_valid : Bool)
      (client_auth_signature_valid : Bool)
      (challenge_response_valid : Bool)

/-- Embeds `struct IdentityServer` from gosling.rs, without the owned RPC session. -/
structure IdentityServer where
  server_identity : V3OnionServiceId
  state : IdentityServerState
  begin_handshake_request_cookie : Option RequestCookie
  requested_endpoint : Option (List Nat)
  server_cookie : Option (List Nat)
  endpoint_challenge : Option BsonDocument
  send_response_request_cookie : Option RequestCookie
  client_identity : Option V3OnionServiceId
  client_auth_key : Option X25519PublicKey
  challenge_response : Option BsonDocument
  endpoint_private_key : Option Ed25519PrivateKey
  client_allowed : Bool
  client_requested_endpoint_valid : Bool
  client_proof_signature_valid : Bool
  client_auth_signature_valid : Bool
  challenge_response_valid : Bool

/-- Embeds `IdentityServer::new` from gosling.rs. -/
def IdentityServer.new (server_identity : V3OnionServiceId) : IdentityServer :=
  { server_identity := server_identity
    state := .waitingForBeginHandshake
    begin_handshake_request_cookie := none
    requested_endpoint := none
    server_cookie := none
    endpoint_challenge := none
    send_response_request_cookie := none
    client_identity := none
    client_auth_key := none
    challenge_response := none
    endpoint_private_key := none
    client_allowed := false
    client_requested_endpoint_valid := false
    client_proof_signature_valid := false
    client_auth_signature_valid := false
    challenge_response_valid := false }

/-- Embeds `IdentityServer::update` from gosling.rs (lines 433-523): the state-match
portion of the tick.  (The `rpc.update(Some(&mut [self]))` pump that feeds
inbound requests to `exec_function` and drains `next_result` is modelled
separately by those functions.) -/
def IdentityServer.update (s : IdentityServer) :
    Except Fault (Option IdentityServerEvent × IdentityServer) :=
  match s.state, s.begin_handshake_request_cookie, s.client_identity,
      s.requested_endpoint, s.server_cookie, s.endpoint_challenge,
      s.send_response_request_cookie, s.client_auth_key, s.challenge_response,
      s.endpoint_private_key with
  | .waitingForBeginHandshake, some _, some client_identity, some requested_endpoint,
      none, none, none, none, none, none =>
      .ok (some (.endpointRequestReceived client_identity requested_endpoint),
           { s with state := .gettingChallenge })
  | .waitingForSendResponse, some _, some _, some _, some _, some _,
      some _, some _, some challenge_response, none =>
      -- `std::mem::take(challenge_response)` leaves an empty document behind
      .ok (some (.challengeResponseReceived challenge_response),
           { s with state := .gettingChallengeVerification, challenge_response := some [] })
  | .challengeVerificationResponseSent, some _, some client_identity,
      some requested_endpoint, some _, some _, some _, some client_auth_key,
      some _, some endpoint_private_key =>
      .ok (some (.handshakeCompleted endpoint_private_key requested_endpoint
              client_identity client_auth_key),
           { s with state := .handshakeComplete })
  | .challengeVerificationResponseSent, some _, some _, some _, some _, some _,
      some _, some _, some _, none =>
      .ok (some (.handshakeRejected s.client_allowed s.client_requested_endpoint_valid
              s.client_proof_signature_valid s.client_auth_signature_valid
              s.challenge_response_valid),
           { s with state := .handshakeComplete })
  | _, _, _, _, _, _, _, _, _, _ => .ok (none, s)

/-- Embeds `IdentityServer::handle_begin_handshake` from gosling.rs (lines 526-537). -/
def IdentityServer.handle_begin_handshake (s : IdentityServer)
    (version : List Nat) (endpoint_name : List Nat) :
    Except GoslingError IdentityServer :=
  if version ≠ GOSLING_VERSION then
    .error .badVersion
  else
    .ok { s with requested_endpoint := some endpoint_name }

/-- Embeds `IdentityServer::send_challenge` from gosling.rs (lines 539-577).
`freshServerCookie` is the 32-byte random draw for the server cookie. -/
def IdentityServer.send_challenge (s : IdentityServer)
    (client_allowed : Bool) (endpoint_valid : Bool)
    (endpoint_challenge : BsonDocument) (freshServerCookie : List Nat) :
    Except Fault IdentityServer :=
  match s.state, s.begin_handshake_request_cookie, s.client_identity,
      s.requested_endpoint, s.server_cookie, s.endpoint_challenge,
      s.client_auth_key, s.challenge_response, s.endpoint_private_key with
  | .gettingChallenge, some _, some _, some _, none, none, none, none, none =>
      .ok { s with
        server_cookie := some freshServerCookie
        endpoint_challenge := some endpoint_challenge
        client_allowed := client_allowed
        client_requested_endpoint_valid := endpoint_valid
        state := .challengeReady }
  | _, _, _, _, _, _, _, _, _ => .error .invalidState

/-- Embeds `IdentityServer::handle_send_response` from gosling.rs (lines 580-613).
The `unwrap()`s on `requested_endpoint` and `server_cookie` are total on
every state in which `exec_function` dispatches here; they are modelled by
defaulting to the empty list. -/
def IdentityServer.handle_send_response (s : IdentityServer)
    (client_cookie : List Nat) (client_identity : V3OnionServiceId)
    (client_identity_proof_signature : Ed25519Signature)
    (client_authorization_key : X25519PublicKey)
    (client_authorization_key_signbit : Nat)
    (client_authorization_signature : Ed25519Signature)
    (challenge_response : BsonDocument) :
    Except GoslingError IdentityServer :=
  let s :=
    match Ed25519PublicKey.from_service_id client_identity with
    | some client_identity_key =>
        match build_client_proof .goslingIdentity (s.requested_endpoint.getD [])
            client_identity s.server_identity client_cookie
            (s.server_cookie.getD []) with
        | some client_proof =>
            { s with client_proof_signature_valid :=
                client_identity_proof_signature.verify client_proof client_identity_key }
        | none => s
    | none => s
  .ok { s with
    client_auth_signature_valid :=
      Ed25519Signature.verify_x25519 client_authorization_signature client_identity
        client_authorization_key client_authorization_key_signbit
    client_auth_key := some client_authorization_key
    challenge_response := some challenge_response }

/-- Embeds `IdentityServer::send_challenge_verification` from gosling.rs
(lines 615-645). -/
def IdentityServer.send_challenge_verification (s : IdentityServer)
    (challenge_response_valid : Bool) : Except Fault IdentityServer :=
  match s.state, s.begin_handshake_request_cookie, s.client_identity,
      s.requested_endpoint, s.server_cookie, s.endpoint_challenge,
      s.client_auth_key, s.challenge_response, s.endpoint_private_key with
  | .gettingChallengeVerification, some _, some _, some _, some _, some _,
      some _, some _, none =>
      .ok { s with
        challenge_response_valid := challenge_response_valid
        state := .challengeVerificationReady }
  | _, _, _, _, _, _, _, _, _ => .error .invalidState

end Gosling

namespace Gosling

/-- Embeds `impl ApiSet for IdentityServer — exec_function` from gosling.rs
(lines 653-786).  Returns the immediate reply (`Ok None` means the reply is
deferred) together with the successor state. -/
def IdentityServer.exec_function (s : IdentityServer)
    (name : String) (version : Int) (args : BsonDocument)
    (request_cookie : Option RequestCookie) :
    Except ErrorCode (Option Bson) × IdentityServer :=
  match request_cookie with
  | none => (.error (.runtime GoslingError.requestCookieRequired.code), s)
  | some request_cookie =>
      match name, version, s.state, s.begin_handshake_request_cookie,
          s.client_identity, s.requested_endpoint, s.server_cookie,
          s.endpoint_challenge, s.client_auth_key, s.challenge_response,
          s.endpoint_private_key with
      | "begin_handshake", 0, .waitingForBeginHandshake,
          none, none, none, none, none, none, none, none =>
          (match docGet args "version", docGet args "client_identity",
              docGet args "endpoint" with
          | some (.string ver), some (.string client_identity),
              some (.string endpoint_name) =>
              let s := { s with begin_handshake_request_cookie := some request_cookie }
              (match V3OnionServiceId.from_string client_identity with
              | none => (.error (.runtime GoslingError.invalidArg.code), s)
              | some cid =>
                  let s := { s with client_identity := some cid }
                  match s.handle_begin_handshake ver endpoint_name with
                  | .ok s2 => (.ok none, s2)
                  | .error err => (.error (.runtime err.code), s))
          | _, _, _ => (.error (.runtime GoslingError.invalidArg.code), s))
      | "send_response", 0, .waitingForSendResponse,
          some _, some client_identity, some _, some _, some _,
          none, none, none =>
          (match docGet args "client_cookie",
              docGet args "client_identity_proof_signature",
              docGet args "client_authorization_key",
              docGet args "client_authorization_key_signbit",
              docGet args "client_authorization_signature",
              docGet args "challenge_response" with
          | some (.binary .generic client_cookie),
              some (.binary .generic client_identity_proof_signature),
              some (.binary .generic client_authorization_key),
              some (.boolean client_authorization_key_signbit),
              some (.binary .generic client_authorization_signature),
              some (.document challenge_response) =>
              let s := { s with send_response_request_cookie := some request_cookie }
              if client_cookie.length ≠ CLIENT_COOKIE_SIZE then
                (.error (.runtime GoslingError.invalidArg.code), s)
              else if client_identity_proof_signature.length ≠ ED25519_SIGNATURE_SIZE then
                (.error (.runtime GoslingError.invalidArg.code), s)
              else
                match Ed25519Signature.from_raw client_identity_proof_signature with
                | none => (.error (.runtime GoslingError.invalidArg.code), s)
                | some proof_signature =>
                    if client_authorization_key.length ≠ X25519_PUBLIC_KEY_SIZE then
                      (.error (.runtime GoslingError.invalidArg.code), s)
                    else
                      let signbit : Nat := if client_authorization_key_signbit then 1 else 0
                      if client_authorization_signature.length ≠ ED25519_SIGNATURE_SIZE then
                        (.error (.runtime GoslingError.invalidArg.code), s)
                      else
                        match Ed25519Signature.from_raw client_authorization_signature with
                        | none => (.error (.runtime GoslingError.invalidArg.code), s)
                        | some auth_signature =>
                            match s.handle_send_response client_cookie client_identity
                                proof_signature client_authorization_key signbit
                                auth_signature challenge_response with
                            | .ok s2 => (.ok none, s2)
                            | .error err => (.error (.runtime err.code), s)
          | _, _, _, _, _, _ => (.error (.runtime GoslingError.invalidArg.code), s))
      | _, _, _, _, _, _, _, _, _, _, _ =>
          (.error (.runtime GoslingError.failure.code), s)

/-- Embeds `impl ApiSet for IdentityServer — next_result` from gosling.rs
(lines 788-854).  `freshEndpointKey` is the ed25519 key
`Ed25519PrivateKey::generate()` would draw in the success branch.  The
`unreachable!()` arm for a `ChallengeReady` state with inconsistent fields
is modelled as yielding nothing. -/
def IdentityServer.next_result (s : IdentityServer)
    (freshEndpointKey : Ed25519PrivateKey) :
    Option (RequestCookie × Option Bson × ErrorCode) × IdentityServer :=
  match s.state, s.begin_handshake_request_cookie, s.client_identity,
      s.requested_endpoint, s.server_cookie, s.endpoint_challenge,
      s.send_response_request_cookie, s.client_auth_key, s.challenge_response with
  | .challengeReady, some begin_handshake_request_cookie, some _, some _,
      some server_cookie, some endpoint_challenge, none, none, none =>
      -- `std::mem::take(endpoint_challenge)` leaves an empty document behind
      (some (begin_handshake_request_cookie,
          some (.document [("server_cookie", .binary .generic server_cookie),
                           ("endpoint_challenge", .document endpoint_challenge)]),
          .success),
       { s with state := .waitingForSendResponse, endpoint_challenge := some [] })
  | .challengeVerificationReady, some _, some _, some _, some _, some _,
      some send_response_request_cookie, some _, some _ =>
      let success := s.client_allowed && s.client_requested_endpoint_valid
          && s.client_proof_signature_valid && s.client_auth_signature_valid
          && s.challenge_response_valid
      if success then
        let endpoint_private_key := freshEndpointKey
        let endpoint_service_id := V3OnionServiceId.from_private_key endpoint_private_key
        (some (send_response_request_cookie, some (.string endpoint_service_id), .success),
         { s with
            state := .challengeVerificationResponseSent
            endpoint_private_key := some endpoint_private_key })
      else
        (some (send_response_request_cookie, none, .runtime GoslingError.failure.code),
         { s with state := .challengeVerificationResponseSent })
  | _, _, _, _, _, _, _, _, _ => (none, s)

end Gosling

namespace Gosling

/-- Embeds `enum EndpointClientEvent` from gosling.rs. -/
inductive EndpointClientEvent where
  | handshakeCompleted

/-- Embeds `enum EndpointClientState` from gosling.rs. -/
inductive EndpointClientState where
  | beginHandshake
  | waitingForServerCookie
  | waitingForProofVerification
  | handshakeComplete
deriving DecidableEq

/-- Embeds `struct EndpointClient` from gosling.rs, without the owned RPC session. -/
structure EndpointClient where
  server_service_id : V3OnionServiceId
  requested_channel : List Nat
  client_ed25519_private : Ed25519PrivateKey
  state : EndpointClientState
  begin_handshake_request_cookie : Option RequestCookie
  send_response_request_cookie : Option RequestCookie

/-- Embeds `EndpointClient::new` from gosling.rs. -/
def EndpointClient.new
    (server_service_id : V3OnionServiceId)
    (requested_channel : List Nat)
    (client_ed25519_private : Ed25519PrivateKey) : EndpointClient :=
  { server_service_id := server_service_id
    requested_channel := requested_channel
    client_ed25519_private := client_ed25519_private
    state := .beginHandshake
    begin_handshake_request_cookie := none
    send_response_request_cookie := none }

/-- The outcome of one `EndpointClient::update` tick. -/
structure EndpointClientStep where
  event : Option EndpointClientEvent
  next : EndpointClient
  calls : List RpcCall

/-- Embeds `EndpointClient::update` from gosling.rs (lines 899-1021). -/
def EndpointClient.update (c : EndpointClient) (response : Option Response)
    (freshCookie : RequestCookie) (freshClientCookie : List Nat) :
    Except Fault EndpointClientStep :=
  if c.state = .handshakeComplete then .error .invalidState else
  match c.state, c.begin_handshake_request_cookie, c.send_response_request_cookie with
  | .beginHandshake, none, none =>
      .ok { event := none
            next := { c with
              state := .waitingForServerCookie
              begin_handshake_request_cookie := some freshCookie }
            calls := [{ ns := "gosling_endpoint", func := "begin_handshake", version := 0
                        args := [("version", .string GOSLING_VERSION),
                                 ("channel", .string c.requested_channel)] }] }
  | .waitingForServerCookie, some bc, none =>
      match response with
      | none => .ok { event := none, next := c, calls := [] }
      | some (.pending cookie) =>
          if cookie = bc then .ok { event := none, next := c, calls := [] }
          else .error .unexpectedResponse
      | some (.error cookie error_code) =>
          if cookie = bc then .error (.rpcError error_code)
          else .error .unexpectedResponse
      | some (.success cookie result) =>
          if cookie = bc then
            match result with
            | .document d =>
                match docGet d "server_cookie" with
                | some (.binary .generic server_cookie) =>
                    let client_cookie := freshClientCookie
                    let client_ed25519_public :=
                      Ed25519PublicKey.from_private_key c.client_ed25519_private
                    let client_service_id :=
                      V3OnionServiceId.from_public_key client_ed25519_public
                    if server_cookie.length = SERVER_COOKIE_SIZE then
                      match build_client_proof .goslingEndpoint c.requested_channel
                          client_service_id c.server_service_id client_cookie
                          server_cookie with
                      | none => .error .badArgument
                      | some client_identity_proof =>
                          let client_identity_proof_signature :=
                            c.client_ed25519_private.sign_message client_identity_proof
                          .ok { event := none
                                next := { c with
                                  state := .waitingForProofVerification
                                  send_response_request_cookie := some freshCookie }
                                calls := [{ ns := "gosling_endpoint", func := "send_response"
                                            version := 0
                                            args := [("client_cookie",
                                                        .binary .generic client_cookie),
                                                     ("client_identity",
                                                        .string client_service_id),
                                                     ("client_identity_proof_signature",
                                                        .binary .generic
                                                          client_identity_proof_signature)] }] }
                    else .error .badReply
                -- a non-Generic binary or a missing key falls through silently
                | _ => .ok { event := none, next := c, calls := [] }
            | _ => .error .badReply
          else .error .unexpectedResponse
  | .waitingForProofVerification, some _, some rc =>
      match response with
      | none => .ok { event := none, next := c, calls := [] }
      | some (.pending cookie) =>
          if cookie = rc then .ok { event := none, next := c, calls := [] }
          else .error .unexpectedResponse
      | some (.error cookie error_code) =>
          if cookie = rc then .error (.rpcError error_code)
          else .error .unexpectedResponse
      | some (.success cookie result) =>
          if cookie = rc then
            match result with
            | .document d =>
                if d.isEmpty then
                  .ok { event := some .handshakeCompleted
                        next := { c with state := .handshakeComplete }
                        calls := [] }
                else .error .badReply
            -- a non-document success reply falls through silently
            | _ => .ok { event := none, next := c, calls := [] }
          else .error .unexpectedResponse
  | _, _, _ => .error .invalidState

end Gosling

namespace Gosling

/-- Embeds `enum EndpointServerEvent` from gosling.rs (lines 1028-1043). -/
inductive EndpointServerEvent where
  | channelRequestReceived (requested_channel : List Nat)
  | handshakeCompleted
      (client_service_id : V3OnionServiceId)
      (channel_name : List Nat)
  | handshakeRejected
      (client_allowed : Bool)
      (client_requested_channel_valid : Bool)
      (client_proof_signature_valid : Bool)

end Gosling

namespace GoslingCrate

open Gosling

/-- Modelled from the spec: `AsciiString` from the missing
crates/gosling/src/ascii_string.rs; a byte string whose construction
enforces that every byte is ASCII. -/
structure AsciiString where
  bytes : List Nat
deriving DecidableEq

/-- Modelled from the spec: `AsciiString::new` fails on any non-ASCII byte
("Non-ASCII request/channel/endpoint names cause the producing side to
fail"). -/
def AsciiString.new (s : List Nat) : Option AsciiString :=
  if isAsciiStr s then some ⟨s⟩ else none

/-- Modelled from the spec (section 6): the runtime error codes of
`RpcError` from the missing crates/gosling/src/gosling.rs:
"BadVersion=1, RequestCookieRequired=2, InvalidArg=3, Failure=4". -/
inductive RpcError where
  | badVersion
  | requestCookieRequired
  | invalidArg
  | failure
deriving DecidableEq

/-- Modelled from the spec: `RpcError as i32` with the codes of section 6. -/
def RpcError.code : RpcError → Int
  | .badVersion => 1
  | .requestCookieRequired => 2
  | .invalidArg => 3
  | .failure => 4

/-- Modelled from the spec: `build_client_proof` from the missing
crates/gosling/src/gosling.rs.  It is total: the `AsciiString` request is
ASCII by construction, and the byte string is the one of spec section 3. -/
def build_client_proof
    (domain_separator : DomainSeparator)
    (request : AsciiString)
    (client_service_id : V3OnionServiceId)
    (server_service_id : V3OnionServiceId)
    (client_cookie : List Nat)
    (server_cookie : List Nat) : List Nat :=
  domain_separator.bytes ++ [0] ++ request.bytes ++ [0]
    ++ client_service_id ++ [0] ++ server_service_id ++ [0]
    ++ hexLowerEncode client_cookie ++ [0] ++ hexLowerEncode server_cookie

/-- Embeds `enum Error` from crates/gosling/src/endpoint_server.rs (lines 23-33). -/
inductive Error where
  | honkRPCFailure
  | invalidState
  | incorrectUsage
deriving DecidableEq

/-- Embeds `enum EndpointServerEvent` from crates/gosling/src/endpoint_server.rs. -/
inductive EndpointServerEvent where
  | channelRequestReceived (requested_channel : AsciiString)
  | handshakeCompleted
      (client_service_id : V3OnionServiceId)
      (channel_name : AsciiString)
  | handshakeRejected
      (client_allowed : Bool)
      (client_requested_channel_valid : Bool)
      (client_proof_signature_valid : Bool)

/-- Embeds `enum EndpointServerState` from crates/gosling/src/endpoint_server.rs. -/
inductive EndpointServerState where
  | waitingForBeginHandshake
  | validatingChannelRequest
  | channelRequestValidated
  | waitingForSendResponse
  | handledSendResponse
  | handshakeComplete
deriving DecidableEq

/-- Embeds `struct EndpointServer` from crates/gosling/src/endpoint_server.rs,
without the owned RPC session. -/
structure EndpointServer where
  server_identity : V3OnionServiceId
  allowed_client_identity : V3OnionServiceId
  state : EndpointServerState
  begin_handshake_request_cookie : Option RequestCookie
  client_identity : Option V3OnionServiceId
  requested_channel : Option AsciiString
  server_cookie : Option (List Nat)
  handshake_succeeded : Option Bool
  client_allowed : Bool
  client_requested_channel_valid : Bool
  client_proof_signature_valid : Bool

/-- Embeds `EndpointServer::new` from crates/gosling/src/endpoint_server.rs:
note `client_requested_channel_valid` starts out `true`
("currently always true by construction", spec section 9). -/
def EndpointServer.new
    (client_identity : V3OnionServiceId)
    (server_identity : V3OnionServiceId) : EndpointServer :=
  { server_identity := server_identity
    allowed_client_identity := client_identity
    state := .waitingForBeginHandshake
    begin_handshake_request_cookie := none
    client_identity := none
    requested_channel := none
    server_cookie := none
    handshake_succeeded := none
    client_allowed := false
    client_requested_channel_valid := true
    client_proof_signature_valid := false }

/-- Embeds `EndpointServer::update` from crates/gosling/src/endpoint_server.rs
(lines 118-196): the state-match portion of the tick. -/
def EndpointServer.update (s : EndpointServer) :
    Except Error (Option EndpointServerEvent × EndpointServer) :=
  match s.state, s.begin_handshake_request_cookie, s.client_identity,
      s.requested_channel, s.server_cookie, s.handshake_succeeded with
  | .waitingForBeginHandshake, none, none, none, none, none =>
      .ok (none, s)
  | .waitingForBeginHandshake, some _, some _, some requested_channel, none, none =>
      .ok (some (.channelRequestReceived requested_channel),
           { s with state := .validatingChannelRequest })
  | .validatingChannelRequest, some _, some _, some _, none, none =>
      .ok (none, s)
  | .channelRequestValidated, some _, some _, some _, some _, none =>
      .ok (none, s)
  | .waitingForSendResponse, some _, some _, some _, some _, none =>
      .ok (none, s)
  | .handledSendResponse, some _, some client_identity, some requested_channel,
      some _, some handshake_succeeded =>
      if handshake_succeeded then
        .ok (some (.handshakeCompleted client_identity requested_channel),
             { s with state := .handshakeComplete })
      else
        .ok (some (.handshakeRejected s.client_allowed
                s.client_requested_channel_valid s.client_proof_signature_valid),
             { s with state := .handshakeComplete })
  | _, _, _, _, _, _ => .error .invalidState

/-- Embeds `EndpointServer::handle_begin_handshake` from
crates/gosling/src/endpoint_server.rs (lines 199-210). -/
def EndpointServer.handle_begin_handshake (s : EndpointServer)
    (version : List Nat) (channel_name : AsciiString) :
    Except RpcError EndpointServer :=
  if version ≠ GOSLING_VERSION then
    .error .badVersion
  else
    .ok { s with requested_channel := some channel_name }

/-- Embeds `EndpointServer::handle_channel_request_received` from
crates/gosling/src/endpoint_server.rs (lines 212-239). -/
def EndpointServer.handle_channel_request_received (s : EndpointServer)
    (client_requested_channel_valid : Bool) (freshServerCookie : List Nat) :
    Except Error EndpointServer :=
  match s.state, s.begin_handshake_request_cookie, s.client_identity,
      s.requested_channel, s.server_cookie, s.handshake_succeeded with
  | .validatingChannelRequest, some _, some client_identity, some _, none, none =>
      .ok { s with
        server_cookie := some freshServerCookie
        client_allowed := decide (client_identity = s.allowed_client_identity)
        client_requested_channel_valid := client_requested_channel_valid
        state := .channelRequestValidated }
  | _, _, _, _, _, _ => .error .incorrectUsage

/-- Embeds `EndpointServer::handle_send_response` from
crates/gosling/src/endpoint_server.rs (lines 242-283).  The `unreachable!()`
on a missing server cookie is modelled by defaulting to the empty list. -/
def EndpointServer.handle_send_response (s : EndpointServer)
    (client_cookie : List Nat) (client_identity : V3OnionServiceId)
    (client_identity_proof_signature : Ed25519Signature) :
    Except RpcError Bson × EndpointServer :=
  match Ed25519PublicKey.from_service_id client_identity, s.requested_channel with
  | some client_identity_key, some requested_channel =>
      let server_cookie := s.server_cookie.getD []
      let client_proof := build_client_proof .goslingEndpoint requested_channel
          client_identity s.server_identity client_cookie server_cookie
      let s := { s with client_proof_signature_valid :=
          client_identity_proof_signature.verify client_proof client_identity_key }
      if s.client_allowed && s.client_requested_channel_valid
          && s.client_proof_signature_valid then
        (.ok (.document []),
         { s with handshake_succeeded := some true, state := .handledSendResponse })
      else
        (.error .failure,
         { s with handshake_succeeded := some false, state := .handledSendResponse })
  | _, _ =>
      (.error .failure,
       { s with handshake_succeeded := some false, state := .handledSendResponse })

/-- Embeds `impl ApiSet for EndpointServer — exec_function` from
crates/gosling/src/endpoint_server.rs (lines 292-378). -/
def EndpointServer.exec_function (s : EndpointServer)
    (name : String) (version : Int) (args : BsonDocument)
    (request_cookie : Option RequestCookie) :
    Except ErrorCode (Option Bson) × EndpointServer :=
  match request_cookie with
  | none => (.error (.runtime RpcError.requestCookieRequired.code), s)
  | some request_cookie =>
      match name, version, s.state, s.client_identity, s.requested_channel with
      | "begin_handshake", 0, .waitingForBeginHandshake, none, none =>
          (match docGet args "version", docGet args "client_identity",
              docGet args "channel" with
          | some (.string ver), some (.string client_identity),
              some (.string channel_name) =>
              let s := { s with begin_handshake_request_cookie := some request_cookie }
              (match V3OnionServiceId.from_string client_identity with
              | none => (.error (.runtime RpcError.invalidArg.code), s)
              | some cid =>
                  let s := { s with client_identity := some cid }
                  match AsciiString.new channel_name with
                  | none => (.error (.runtime RpcError.invalidArg.code), s)
                  | some channel =>
                      match s.handle_begin_handshake ver channel with
                      | .ok s2 => (.ok none, s2)
                      | .error err => (.error (.runtime err.code), s))
          | _, _, _ => (.error (.runtime RpcError.invalidArg.code), s))
      | "send_response", 0, .waitingForSendResponse, some client_identity, some _ =>
          (match docGet args "client_cookie",
              docGet args "client_identity_proof_signature" with
          | some (.binary .generic client_cookie),
              some (.binary .generic client_identity_proof_signature) =>
              if client_cookie.length ≠ CLIENT_COOKIE_SIZE then
                (.error (.runtime RpcError.invalidArg.code), s)
              else if client_identity_proof_signature.length ≠ ED25519_SIGNATURE_SIZE then
                (.error (.runtime RpcError.invalidArg.code), s)
              else
                match Ed25519Signature.from_raw client_identity_proof_signature with
                | none => (.error (.runtime RpcError.invalidArg.code), s)
                | some proof_signature =>
                    match s.handle_send_response client_cookie client_identity
                        proof_signature with
                    | (.ok result, s2) => (.ok (some result), s2)
                    | (.error err, s2) => (.error (.runtime err.code), s2)
          | _, _ => (.error (.runtime RpcError.invalidArg.code), s))
      | _, _, _, _, _ => (.ok none, s)

/-- Embeds `impl ApiSet for EndpointServer — next_result` from
crates/gosling/src/endpoint_server.rs (lines 380-402). -/
def EndpointServer.next_result (s : EndpointServer) :
    Option (RequestCookie × Option Bson × ErrorCode) × EndpointServer :=
  match s.state, s.begin_handshake_request_cookie, s.server_cookie with
  | .channelRequestValidated, some begin_handshake_request_cookie, some server_cookie =>
      (some (begin_handshake_request_cookie,
          some (.document [("server_cookie", .binary .generic server_cookie)]),
          .success),
       { s with state := .waitingForSendResponse })
  | _, _, _ => (none, s)

end GoslingCrate

namespace Gosling

/-- Embeds `enum EndpointServerState` from gosling.rs (lines 1045-1051). -/
inductive OldEndpointServerState where
  | waitingForBeginHandshake
  | waitingForSendResponse
  | handledSendResponse
  | handshakeComplete
deriving DecidableEq

/-- Embeds `struct EndpointServer` from gosling.rs (lines 1053-1064), without the
owned RPC session.  (The reworked endpoint server of
crates/gosling/src/endpoint_server.rs is embedded separately.) -/
structure EndpointServer where
  server_cookie : List Nat
  client_identity : V3OnionServiceId
  server_identity : V3OnionServiceId
  state : OldEndpointServerState
  requested_channel : Option (List Nat)
  handshake_succeeded : Option Bool

/-- Embeds `EndpointServer::new` from gosling.rs (lines 1067-1086);
`freshServerCookie` is the 32-byte random draw made at construction. -/
def EndpointServer.new
    (client_identity : V3OnionServiceId)
    (server_identity : V3OnionServiceId)
    (freshServerCookie : List Nat) : EndpointServer :=
  { server_cookie := freshServerCookie
    client_identity := client_identity
    server_identity := server_identity
    state := .waitingForBeginHandshake
    requested_channel := none
    handshake_succeeded := none }

/-- Embeds `pub type HandshakeHandle = usize` from gosling.rs. -/
abbrev HandshakeHandle := Nat

/-- Embeds `enum ContextEvent` from gosling.rs (lines 1305-1467).  `TcpStream`
payloads are modelled as opaque stream identifiers.  The misspelled
`EndointClientHandshakeFailed` variant keeps its source name. -/
inductive ContextEvent where
  | torBootstrapStatusReceived (progress : Nat) (tag : String) (summary : String)
  | torBootstrapCompleted
  | torLogReceived (line : String)
  | identityClientChallengeReceived (handle : HandshakeHandle)
      (identity_service_id : V3OnionServiceId) (endpoint_name : List Nat)
      (endpoint_challenge : BsonDocument)
  | identityClientHandshakeCompleted (handle : HandshakeHandle)
      (identity_service_id : V3OnionServiceId)
      (endpoint_service_id : V3OnionServiceId) (endpoint_name : List Nat)
      (client_auth_private_key : X25519PrivateKey)
  | identityClientHandshakeFailed (handle : HandshakeHandle) (reason : Option Fault)
  | identityServerPublished
  | identityServerHandshakeStarted (handle : HandshakeHandle)
  | identityServerEndpointRequestReceived (handle : HandshakeHandle)
      (client_service_id : V3OnionServiceId) (requested_endpoint : List Nat)
  | identityServerChallengeResponseReceived (handle : HandshakeHandle)
      (challenge_response : BsonDocument)
  | identityServerHandshakeCompleted (handle : HandshakeHandle)
      (endpoint_private_key : Ed25519PrivateKey) (endpoint_name : List Nat)
      (client_service_id : V3OnionServiceId)
      (client_auth_public_key : X25519PublicKey)
  | identityServerHandshakeRejected (handle : HandshakeHandle)
      (client_allowed : Bool) (client_requested_endpoint_valid : Bool)
      (client_proof_signature_valid : Bool) (client_auth_signature_valid : Bool)
      (challenge_response_valid : Bool)
  | identityServerHandshakeFailed (handle : HandshakeHandle) (reason : Option Fault)
  | endpointClientHandshakeCompleted
      (endpoint_service_id : V3OnionServiceId) (channel_name : List Nat)
      (stream : Nat)
  | endointClientHandshakeFailed (handle : HandshakeHandle) (reason : Option Fault)
  | endpointServerPublished
      (endpoint_service_id : V3OnionServiceId) (endpoint_name : List Nat)
  | endpointServerHandshakeStarted (handle : HandshakeHandle)
  | endpointServerChannelRequestReceived (handle : HandshakeHandle)
      (endpoint_service_id : V3OnionServiceId) (requested_channel : List Nat)
  | endpointServerHandshakeCompleted (handle : HandshakeHandle)
      (endpoint_service_id : V3OnionServiceId)
      (client_service_id : V3OnionServiceId) (channel_name : List Nat)
      (stream : Nat)
  | endpointServerHandshakeRejected (handle : HandshakeHandle)
      (client_allowed : Bool) (client_requested_channel_valid : Bool)
      (client_proof_signature_valid : Bool)
  | endpointServerRequestFailed (handle : HandshakeHandle) (reason : Option Fault)

/-- Whether a `ContextEvent` is one of the terminal per-handshake events for
the given handle: a completed, rejected, or failed variant (spec section 7:
"every terminal handshake emits exactly one of {completed, rejected,
failed}"). -/
def ContextEvent.isTerminalFor (handle : HandshakeHandle) : ContextEvent → Bool
  | .identityClientHandshakeCompleted h _ _ _ _ => h == handle
  | .identityClientHandshakeFailed h _ => h == handle
  | .identityServerHandshakeCompleted h _ _ _ _ => h == handle
  | .identityServerHandshakeRejected h _ _ _ _ _ => h == handle
  | .identityServerHandshakeFailed h _ => h == handle
  | .endpointClientHandshakeCompleted _ _ _ => false
  | .endointClientHandshakeFailed h _ => h == handle
  | .endpointServerHandshakeCompleted h _ _ _ _ => h == handle
  | .endpointServerHandshakeRejected h _ _ _ => h == handle
  | .endpointServerRequestFailed h _ => h == handle
  | _ => false

/-- The per-FSM dispatch block for identity clients inside `Context::update`
(gosling.rs lines 1744-1788): from the tick's outcome, the `ContextEvent`s
pushed for this handle and whether the FSM is retired (removed from the
map). -/
def identityClientDispatch (handle : HandshakeHandle)
    (outcome : Except Fault (Option IdentityClientEvent)) :
    List ContextEvent × Bool :=
  match outcome with
  | .ok (some (.challengeReceived identity_service_id endpoint_name endpoint_challenge)) =>
      ([.identityClientChallengeReceived handle identity_service_id endpoint_name
          endpoint_challenge], false)
  | .ok (some (.handshakeCompleted identity_service_id endpoint_service_id
      endpoint_name client_auth_private_key)) =>
      ([.identityClientHandshakeCompleted handle identity_service_id
          endpoint_service_id endpoint_name client_auth_private_key], true)
  | .ok none => ([], false)
  | .error err => ([.identityClientHandshakeFailed handle (some err)], true)

/-- The per-FSM dispatch block for identity servers inside `Context::update`
(gosling.rs lines 1795-1857).  Note the `HandshakeRejected` arm: the code
only `println!`s the flags and pushes no event at all. -/
def identityServerDispatch (handle : HandshakeHandle)
    (outcome : Except Fault (Option IdentityServerEvent)) :
    List ContextEvent × Bool :=
  match outcome with
  | .ok (some (.endpointRequestReceived client_service_id requested_endpoint)) =>
      ([.identityServerEndpointRequestReceived handle client_service_id
          requested_endpoint], false)
  | .ok (some (.challengeResponseReceived challenge_response)) =>
      ([.identityServerChallengeResponseReceived handle challenge_response], false)
  | .ok (some (.handshakeCompleted endpoint_private_key endpoint_name
      client_service_id client_auth_public_key)) =>
      ([.identityServerHandshakeCompleted handle endpoint_private_key endpoint_name
          client_service_id client_auth_public_key], true)
  | .ok (some (.handshakeRejected _ _ _ _ _)) =>
      -- `println!("failure!")` and the five flags; no ContextEvent is pushed
      ([], true)
  | .ok none => ([], false)
  | .error err => ([.identityServerHandshakeFailed handle (some err)], true)

/-- The per-FSM dispatch block for endpoint clients inside `Context::update`
(gosling.rs lines 1864-1887).  `stream` is the identifier of the stream
whose clone accompanies the completed event.  Note the error arm: the code
only `println!`s the error and pushes no event. -/
def endpointClientDispatch (_handle : HandshakeHandle)
    (endpoint_service_id : V3OnionServiceId) (channel_name : List Nat)
    (stream : Nat)
    (outcome : Except Fault (Option EndpointClientEvent)) :
    List ContextEvent × Bool :=
  match outcome with
  | .ok (some .handshakeCompleted) =>
      ([.endpointClientHandshakeCompleted endpoint_service_id channel_name stream], true)
  | .ok none => ([], false)
  | .error _ =>
      -- `println!("error: {:?}", err)`; no ContextEvent is pushed
      ([], true)

/-- The per-FSM dispatch block for endpoint servers inside `Context::update`
(gosling.rs lines 1893-1942).  `streamClone` is the result of
`stream.try_clone()` in the completed arm (`none` when it fails, in which
case nothing is pushed).  Note the error arm pushes no event. -/
def endpointServerDispatch (handle : HandshakeHandle)
    (endpoint_service_id : V3OnionServiceId) (streamClone : Option Nat)
    (outcome : Except Fault (Option EndpointServerEvent)) :
    List ContextEvent × Bool :=
  match outcome with
  | .ok (some (.channelRequestReceived requested_channel)) =>
      ([.endpointServerChannelRequestReceived handle endpoint_service_id
          requested_channel], false)
  | .ok (some (.handshakeCompleted client_service_id channel_name)) =>
      (match streamClone with
      | some stream =>
          ([.endpointServerHandshakeCompleted handle endpoint_service_id
              client_service_id channel_name stream], true)
      | none => ([], true))
  | .ok (some (.handshakeRejected client_allowed client_requested_channel_valid
      client_proof_signature_valid)) =>
      ([.endpointServerHandshakeRejected handle client_allowed
          client_requested_channel_valid client_proof_signature_valid], true)
  | .ok none => ([], false)
  | .error _ => ([], true)

end Gosling

namespace Gosling

/-- Embeds `struct Context` from gosling.rs (lines 1272-1303), without the tor
manager.  The FSM maps are association lists keyed by handle; listeners are
reduced to the data the claims observe (presence, and the per-endpoint
(name, allowed client) pair). -/
structure Context where
  bootstrap_complete : Bool
  identity_port : Nat
  endpoint_port : Nat
  next_handshake_handle : HandshakeHandle
  identity_clients : List (HandshakeHandle × IdentityClient)
  identity_servers : List (HandshakeHandle × IdentityServer)
  endpoint_clients : List (HandshakeHandle × EndpointClient)
  endpoint_servers : List (HandshakeHandle × EndpointServer)
  identity_listener : Bool
  endpoint_listeners : List (V3OnionServiceId × (List Nat × V3OnionServiceId))
  identity_private_key : Ed25519PrivateKey
  identity_service_id : V3OnionServiceId

/-- Embeds `Context::identity_client_begin_handshake` from gosling.rs
(lines 1504-1526).  `freshX25519` is the `X25519PrivateKey::generate()`
draw; the (external) tor connection is taken as succeeding.  On success
the assigned handle is returned to the caller. -/
def Context.identity_client_begin_handshake (ctx : Context)
    (identity_server_id : V3OnionServiceId) (endpoint : List Nat)
    (freshX25519 : X25519PrivateKey) :
    Except Fault (HandshakeHandle × Context) :=
  if !ctx.bootstrap_complete then .error .notBootstrapped
  else
    let ident_client := IdentityClient.new identity_server_id endpoint
        ctx.identity_private_key freshX25519
    let handshake_handle := ctx.next_handshake_handle
    .ok (handshake_handle,
         { ctx with
            next_handshake_handle := ctx.next_handshake_handle + 1
            identity_clients :=
              ctx.identity_clients ++ [(handshake_handle, ident_client)] })

/-- Embeds `Context::endpoint_client_begin_handshake` from gosling.rs
(lines 1605-1626).  The Rust function's return type is `Result<()>`: the
assigned handle is computed and the counter advanced, but only the unit
value is returned to the caller. -/
def Context.endpoint_client_begin_handshake (ctx : Context)
    (endpoint_server_id : V3OnionServiceId) (_client_auth_key : X25519PrivateKey)
    (channel : List Nat) :
    Except Fault (Unit × Context) :=
  if !ctx.bootstrap_complete then .error .notBootstrapped
  else
    let endpoint_client := EndpointClient.new endpoint_server_id channel
        ctx.identity_private_key
    let handshake_handle := ctx.next_handshake_handle
    .ok ((),
         { ctx with
            next_handshake_handle := ctx.next_handshake_handle + 1
            endpoint_clients :=
              ctx.endpoint_clients ++ [(handshake_handle, endpoint_client)] })

/-- Embeds `Context::endpoint_server_handle_channel_request_received` from
gosling.rs (lines 1656-1662): the body is `bail!("not implemented")`. -/
def Context.endpoint_server_handle_channel_request_received (ctx : Context)
    (_handle : HandshakeHandle) (_channel_supported : Bool) :
    Except Fault Unit × Context :=
  (.error .notImplemented, ctx)

end Gosling

namespace Gosling

theorem isValidServiceIdString_length {s : List Nat}
    (h : isValidServiceIdString s = true) : s.length = 56 := by
  simp [isValidServiceIdString, V3_SERVICE_ID_LENGTH] at h
  exact h.1

/-- C3: for every domain separator, request name, service ids and cookies,
`build_client_proof` succeeds exactly on all-ASCII request names, and on
success it returns exactly the byte string
domain-separator ‖ 0 ‖ request ‖ 0 ‖ client-id ‖ 0 ‖ server-id ‖ 0 ‖
lowercase-hex(client-cookie) ‖ 0 ‖ lowercase-hex(server-cookie). -/
theorem build_client_proof_bytes
    (domain_separator : DomainSeparator) (request : List Nat)
    (client_service_id server_service_id : V3OnionServiceId)
    (client_cookie server_cookie : List Nat) :
    (isAsciiStr request = true →
      build_client_proof domain_separator request client_service_id
          server_service_id client_cookie server_cookie =
        some (domain_separator.bytes ++ [0] ++ request ++ [0]
          ++ client_service_id ++ [0] ++ server_service_id ++ [0]
          ++ hexLowerEncode client_cookie ++ [0] ++ hexLowerEncode server_cookie)) ∧
    (build_client_proof domain_separator request client_service_id
        server_service_id client_cookie server_cookie = none ↔
      ¬ (∀ b ∈ request, isAsciiNat b = true)) := by
  constructor
  · intro ha
    simp [build_client_proof, ha]
  · constructor
    · intro hnone hall
      have ha : isAsciiStr request = true := by
        simp [isAsciiStr, List.all_eq_true]
        intro b hb
        simpa [isAsciiNat] using hall b hb
      simp [build_client_proof, ha] at hnone
    · intro hnot
      have ha : isAsciiStr request = false := by
        rcases h : isAsciiStr request with _ | _
        · rfl
        · exfalso
          apply hnot
          intro b hb
          have := List.all_eq_true.mp h b hb
          simpa using this
      simp [build_client_proof, ha]

/-- Witness for C3 at a concrete input. -/
theorem build_client_proof_bytes_witness :
    isAsciiStr [101] = true ∧
    build_client_proof .goslingIdentity [101] [97] [98] [171] [205] =
      some (DomainSeparator.goslingIdentity.bytes ++ [0] ++ [101] ++ [0]
        ++ [97] ++ [0] ++ [98] ++ [0]
        ++ hexLowerEncode [171] ++ [0] ++ hexLowerEncode [205]) :=
  ⟨by decide,
   (build_client_proof_bytes .goslingIdentity [101] [97] [98] [171] [205]).1
     (by decide)⟩

/-- C4: with the domain separator fixed, the client proof is injective in
(request, client service id, server service id, client cookie, server
cookie), for valid inputs: 56-character service ids and 32-byte cookies. -/
theorem build_client_proof_injective
    (domain_separator : DomainSeparator)
    (r₁ r₂ : List Nat) (cs₁ cs₂ ss₁ ss₂ : V3OnionServiceId)
    (cc₁ cc₂ sc₁ sc₂ : List Nat) (p₁ p₂ : List Nat)
    (hcs₁ : isValidServiceIdString cs₁ = true)
    (hcs₂ : isValidServiceIdString cs₂ = true)
    (hss₁ : isValidServiceIdString ss₁ = true)
    (hss₂ : isValidServiceIdString ss₂ = true)
    (hcc₁ : cc₁.length = CLIENT_COOKIE_SIZE) (hcc₁b : ∀ b ∈ cc₁, b < 256)
    (hcc₂ : cc₂.length = CLIENT_COOKIE_SIZE) (hcc₂b : ∀ b ∈ cc₂, b < 256)
    (hsc₁ : sc₁.length = SERVER_COOKIE_SIZE) (hsc₁b : ∀ b ∈ sc₁, b < 256)
    (hsc₂ : sc₂.length = SERVER_COOKIE_SIZE) (hsc₂b : ∀ b ∈ sc₂, b < 256)
    (h₁ : build_client_proof domain_separator r₁ cs₁ ss₁ cc₁ sc₁ = some p₁)
    (h₂ : build_client_proof domain_separator r₂ cs₂ ss₂ cc₂ sc₂ = some p₂)
    (heq : p₁ = p₂) :
    r₁ = r₂ ∧ cs₁ = cs₂ ∧ ss₁ = ss₂ ∧ cc₁ = cc₂ ∧ sc₁ = sc₂ := by
  by_cases ha₁ : isAsciiStr r₁ = true
  case neg => simp [build_client_proof, ha₁] at h₁
  by_cases ha₂ : isAsciiStr r₂ = true
  case neg => simp [build_client_proof, ha₂] at h₂
  simp only [build_client_proof, ha₁, ha₂, if_true, Option.some.injEq] at h₁ h₂
  subst h₁
  subst h₂
  simp only [List.append_assoc] at heq
  have step1 := List.append_cancel_left heq
  have step2 := List.append_cancel_left step1
  have lenT :
      ([0] ++ (cs₁ ++ ([0] ++ (ss₁ ++ ([0] ++ (hexLowerEncode cc₁
          ++ ([0] ++ hexLowerEncode sc₁))))))).length =
      ([0] ++ (cs₂ ++ ([0] ++ (ss₂ ++ ([0] ++ (hexLowerEncode cc₂
          ++ ([0] ++ hexLowerEncode sc₂))))))).length := by
    simp [hexLowerEncode_length, hcc₁, hcc₂, hsc₁, hsc₂,
      isValidServiceIdString_length hcs₁, isValidServiceIdString_length hcs₂,
      isValidServiceIdString_length hss₁, isValidServiceIdString_length hss₂]
  obtain ⟨hr, hT⟩ := List.append_inj' step2 lenT
  refine ⟨hr, ?_⟩
  simp only [List.singleton_append, List.cons.injEq, true_and] at hT
  obtain ⟨hcs, hU⟩ := List.append_inj hT
    (by rw [isValidServiceIdString_length hcs₁, isValidServiceIdString_length hcs₂])
  refine ⟨hcs, ?_⟩
  simp only [List.singleton_append, List.cons.injEq, true_and] at hU
  obtain ⟨hss, hV⟩ := List.append_inj hU
    (by rw [isValidServiceIdString_length hss₁, isValidServiceIdString_length hss₂])
  refine ⟨hss, ?_⟩
  simp only [List.singleton_append, List.cons.injEq, true_and] at hV
  obtain ⟨hhcc, hW⟩ := List.append_inj hV
    (by rw [hexLowerEncode_length, hexLowerEncode_length, hcc₁, hcc₂])
  refine ⟨hexLowerEncode_inj hcc₁b hcc₂b hhcc, ?_⟩
  simp only [List.singleton_append, List.cons.injEq, true_and] at hW
  exact hexLowerEncode_inj hsc₁b hsc₂b hW

set_option maxRecDepth 10000 in
/-- Witness for C4 at a concrete valid input. -/
theorem build_client_proof_injective_witness :
    isValidServiceIdString (List.replicate 56 97) = true ∧
    (List.replicate 32 0).length = CLIENT_COOKIE_SIZE ∧
    ([101] : List Nat) = [101] := by
  refine ⟨by decide, by decide, ?_⟩
  have h := build_client_proof_injective .goslingIdentity
      [101] [101] (List.replicate 56 97) (List.replicate 56 97)
      (List.replicate 56 98) (List.replicate 56 98)
      (List.replicate 32 0) (List.replicate 32 0)
      (List.replicate 32 1) (List.replicate 32 1)
      (DomainSeparator.goslingIdentity.bytes ++ [0] ++ [101] ++ [0]
        ++ List.replicate 56 97 ++ [0] ++ List.replicate 56 98 ++ [0]
        ++ hexLowerEncode (List.replicate 32 0) ++ [0]
        ++ hexLowerEncode (List.replicate 32 1))
      (DomainSeparator.goslingIdentity.bytes ++ [0] ++ [101] ++ [0]
        ++ List.replicate 56 97 ++ [0] ++ List.replicate 56 98 ++ [0]
        ++ hexLowerEncode (List.replicate 32 0) ++ [0]
        ++ hexLowerEncode (List.replicate 32 1))
      (by decide) (by decide) (by decide) (by decide)
      (by decide) (by decide) (by decide) (by decide)
      (by decide) (by decide) (by decide) (by decide)
      (by decide) (by decide) rfl
  exact h.1

end Gosling

namespace Gosling

/-- C10: `Context::endpoint_server_handle_channel_request_received` fails
unconditionally (`bail!("not implemented")`) and leaves the whole Context —
FSM maps, listeners and handle counter included — unchanged. -/
theorem endpoint_server_handle_channel_request_received_stub
    (ctx : Context) (handle : HandshakeHandle) (channel_supported : Bool) :
    ctx.endpoint_server_handle_channel_request_received handle channel_supported =
      (.error .notImplemented, ctx) := rfl

/-- C6 (failing case): when an identity-server FSM tick yields
`HandshakeRejected`, `Context::update` retires the FSM but pushes no
`ContextEvent` at all — in particular no terminal completed / rejected /
failed event for its handle — contradicting the claim that retirement is
accompanied by exactly one terminal event.  The endpoint-client and
endpoint-server error arms drop their terminal event the same way. -/
theorem context_update_retires_without_terminal_event
    (handle : HandshakeHandle) (a b c d e : Bool) (esid : V3OnionServiceId)
    (channel : List Nat) (stream : Nat) (f : Fault) :
    identityServerDispatch handle (.ok (some (.handshakeRejected a b c d e)))
        = ([], true) ∧
    endpointClientDispatch handle esid channel stream (.error f) = ([], true) ∧
    endpointServerDispatch handle esid (some stream) (.error f) = ([], true) ∧
    ((identityServerDispatch handle
        (.ok (some (.handshakeRejected a b c d e)))).1.countP
      (fun ev => ContextEvent.isTerminalFor handle ev)) = 0 :=
  ⟨rfl, rfl, rfl, rfl⟩

end Gosling

namespace Gosling

/-- A concrete bootstrapped Context used to evaluate the begin-handshake
operations. -/
def ctxC9 : Context :=
  { bootstrap_complete := true
    identity_port := 1
    endpoint_port := 2
    next_handshake_handle := 0
    identity_clients := []
    identity_servers := []
    endpoint_clients := []
    endpoint_servers := []
    identity_listener := false
    endpoint_listeners := []
    identity_private_key := [1]
    identity_service_id := V3OnionServiceId.from_private_key [1] }

/-- The two begin-handshake operations run in sequence on `ctxC9`. -/
def ctxC9run : Except Fault (Unit × Context) := do
  let r₁ ← ctxC9.identity_client_begin_handshake (List.replicate 56 97) [101] [2]
  r₁.2.endpoint_client_begin_handshake (List.replicate 56 98) [3] [99]

/-- C9 (failing case): `identity_client_begin_handshake` assigns handle 0,
advances the counter and returns the handle, but
`endpoint_client_begin_handshake` — although it assigns the next handle 1
and advances the counter — returns only the unit value, so the assigned
handle never reaches the caller. -/
theorem endpoint_client_begin_handshake_returns_unit :
    (ctxC9.identity_client_begin_handshake (List.replicate 56 97) [101]
        [2]).toOption.map (fun r => (r.1, r.2.next_handshake_handle)) =
      some (0, 1) ∧
    ctxC9run.toOption.map
        (fun r => (r.1, r.2.next_handshake_handle,
          r.2.endpoint_clients.map Prod.fst)) =
      some ((), 2, [1]) := by
  constructor
  · rfl
  · rfl

end Gosling

namespace Gosling

/-- C5 (counterexample): `GoslingError` is `#[repr(i32)]` with no explicit
discriminants, so `BadVersion as i32` is 0, not 1, and a `begin_handshake`
with version "0.0.0.2" is answered with runtime error code 0. -/
theorem goslingError_badVersion_code_is_zero :
    GoslingError.code .badVersion = 0 ∧ GoslingError.code .badVersion ≠ 1 ∧
    ((IdentityServer.new (List.replicate 56 97)).exec_function "begin_handshake" 0
        [("version", .string [48, 46, 48, 46, 48, 46, 50]),
         ("client_identity", .string (List.replicate 56 98)),
         ("endpoint", .string [101])] (some 7)).1 =
      .error (.runtime 0) :=
  ⟨rfl, by decide, rfl⟩

/-- C5 (amended): the runtime error codes are BadVersion=0,
RequestCookieRequired=1, InvalidArg=2, Failure=3; a `begin_handshake`
carrying any version other than "0.0.0.1" is answered with an RPC runtime
error of code 0, which the waiting identity client surfaces as a remote
RPC error carrying that code before failing the handshake. -/
theorem gosling_error_codes_and_bad_version
    (sid cid : V3OnionServiceId) (v ep : List Nat) (rq : RequestCookie)
    (c : IdentityClient) (bc fc : RequestCookie) (fcc : List Nat)
    (hv : v ≠ GOSLING_VERSION) (hcid : isValidServiceIdString cid = true)
    (hcs : c.state = .waitingForChallenge)
    (hcb : c.begin_handshake_request_cookie = some bc)
    (hcsc : c.server_cookie = none)
    (hcer : c.endpoint_challenge_response = none)
    (hcrc : c.send_response_request_cookie = none) :
    GoslingError.code .badVersion = 0 ∧
    GoslingError.code .requestCookieRequired = 1 ∧
    GoslingError.code .invalidArg = 2 ∧
    GoslingError.code .failure = 3 ∧
    ((IdentityServer.new sid).exec_function "begin_handshake" 0
        [("version", .string v), ("client_identity", .string cid),
         ("endpoint", .string ep)] (some rq)).1 = .error (.runtime 0) ∧
    c.update (some (.error bc (.runtime 0))) fc fcc =
      .error (.rpcError (.runtime 0)) := by
  refine ⟨rfl, rfl, rfl, rfl, ?_, ?_⟩
  · simp [IdentityServer.exec_function, IdentityServer.new, docGet,
      V3OnionServiceId.from_string, hcid, IdentityServer.handle_begin_handshake, hv,
      GoslingError.code]
  · obtain ⟨ssid, re, csid, edk, xk, st, bck, sck, ecr, src⟩ := c
    simp only at hcs hcb hcsc hcer hcrc
    subst hcs
    subst hcb
    subst hcsc
    subst hcer
    subst hcrc
    simp [IdentityClient.update]

/-- Witness for the amended C5 at a concrete input. -/
theorem gosling_error_codes_and_bad_version_witness :
    ([48, 46, 48, 46, 48, 46, 50] : List Nat) ≠ GOSLING_VERSION ∧
    IdentityClient.update
        ⟨List.replicate 56 97, [101], List.replicate 56 97, [1], [2],
          .waitingForChallenge, some 3, none, none, none⟩
        (some (.error 3 (.runtime 0))) 9 [] =
      .error (.rpcError (.runtime 0)) :=
  ⟨by decide,
   (gosling_error_codes_and_bad_version
      (List.replicate 56 97) (List.replicate 56 98)
      [48, 46, 48, 46, 48, 46, 50] [101] 7
      ⟨List.replicate 56 97, [101], List.replicate 56 97, [1], [2],
        .waitingForChallenge, some 3, none, none, none⟩
      3 9 []
      (by decide) (by decide) rfl rfl rfl rfl rfl).2.2.2.2.2⟩

end Gosling

namespace Gosling

/-- C8 (counterexample): an identity client constructed with the non-ASCII
endpoint name [200] still issues the `begin_handshake` RPC on its first
tick — the ASCII check only runs inside `build_client_proof`, after the
challenge response. -/
theorem identity_client_nonascii_still_sends_begin_handshake :
    isAsciiStr [200] = false ∧
    ((IdentityClient.new (List.replicate 56 97) [200] [1] [2]).update none 3
        []).toOption.map (fun step => step.calls.map RpcCall.func) =
      some ["begin_handshake"] :=
  ⟨by decide, rfl⟩

/-- C8 (amended): a client FSM whose request name (requested endpoint or
requested channel) contains a non-ASCII byte fails with the bad-argument
error of `build_client_proof` at the step that would issue `send_response`,
and that tick issues no RPC call — but the earlier `begin_handshake` call
is still sent. -/
theorem nonascii_request_fails_before_send_response :
    (∀ (c : IdentityClient) (response : Option Response) (fc : RequestCookie)
        (fcc : List Nat) (bc : RequestCookie) (sc : List Nat) (cr : BsonDocument),
      c.state = .waitingForChallengeResponse →
      c.begin_handshake_request_cookie = some bc →
      c.server_cookie = some sc →
      c.endpoint_challenge_response = some cr →
      c.send_response_request_cookie = none →
      isAsciiStr c.requested_endpoint = false →
      c.update response fc fcc = .error .badArgument) ∧
    (∀ (c : EndpointClient) (fc : RequestCookie) (fcc : List Nat)
        (bc : RequestCookie) (sc : List Nat),
      c.state = .waitingForServerCookie →
      c.begin_handshake_request_cookie = some bc →
      c.send_response_request_cookie = none →
      sc.length = SERVER_COOKIE_SIZE →
      isAsciiStr c.requested_channel = false →
      c.update (some (.success bc (.document [("server_cookie",
          .binary .generic sc)]))) fc fcc = .error .badArgument) := by
  constructor
  · intro c response fc fcc bc sc cr hst hbc hsc hecr hsrc hascii
    obtain ⟨ssid, re, csid, edk, xk, st, bck, sck, ecr, src⟩ := c
    simp only at hst hbc hsc hecr hsrc hascii
    subst hst
    subst hbc
    subst hsc
    subst hecr
    subst hsrc
    simp [IdentityClient.update, build_client_proof, hascii]
  · intro c fc fcc bc sc hst hbc hsrc hlen hascii
    obtain ⟨ssid, rch, edk, st, bck, src⟩ := c
    simp only at hst hbc hsrc hascii
    subst hst
    subst hbc
    subst hsrc
    simp [EndpointClient.update, docGet, hlen, build_client_proof, hascii]

/-- Witness for the amended C8 at concrete inputs. -/
theorem nonascii_request_fails_before_send_response_witness :
    isAsciiStr [200] = false ∧
    IdentityClient.update
        ⟨List.replicate 56 97, [200], List.replicate 56 97, [1], [2],
          .waitingForChallengeResponse, some 3, some (List.replicate 32 0),
          some [], none⟩ none 9 [] = .error .badArgument ∧
    EndpointClient.update
        ⟨List.replicate 56 97, [200], [1], .waitingForServerCookie, some 3, none⟩
        (some (.success 3 (.document
          [("server_cookie", .binary .generic (List.replicate 32 0))]))) 9 [] =
      .error .badArgument :=
  ⟨by decide,
   nonascii_request_fails_before_send_response.1
     ⟨List.replicate 56 97, [200], List.replicate 56 97, [1], [2],
       .waitingForChallengeResponse, some 3, some (List.replicate 32 0),
       some [], none⟩ none 9 [] 3 (List.replicate 32 0) []
     rfl rfl rfl rfl rfl (by decide),
   nonascii_request_fails_before_send_response.2
     ⟨List.replicate 56 97, [200], [1], .waitingForServerCookie, some 3, none⟩
     9 [] 3 (List.replicate 32 0)
     rfl rfl rfl (by decide) (by decide)⟩

end Gosling

namespace Gosling

/-- C2: with the identity server in `ChallengeVerificationReady` (deferred
send_response cookie and all handshake fields present, no endpoint key
stored yet), the deferred reply is a Success carrying the service-id string
of the freshly generated endpoint key — which is stored in the FSM — if and
only if all five verification flags hold; otherwise the reply is an RPC
runtime-error code and no endpoint key is stored. -/
theorem identity_server_challenge_verification_reply
    (s : IdentityServer) (k : Ed25519PrivateKey)
    (bc rc : RequestCookie) (cid : V3OnionServiceId) (ep sc : List Nat)
    (ch cr : BsonDocument) (ak : X25519PublicKey)
    (hst : s.state = .challengeVerificationReady)
    (hbc : s.begin_handshake_request_cookie = some bc)
    (hre : s.requested_endpoint = some ep)
    (hsc : s.server_cookie = some sc)
    (hch : s.endpoint_challenge = some ch)
    (hrc : s.send_response_request_cookie = some rc)
    (hci : s.client_identity = some cid)
    (hak : s.client_auth_key = some ak)
    (hcr : s.challenge_response = some cr)
    (hek : s.endpoint_private_key = none) :
    if s.client_allowed && s.client_requested_endpoint_valid
        && s.client_proof_signature_valid && s.client_auth_signature_valid
        && s.challenge_response_valid then
      (s.next_result k).1 =
        some (rc, some (.string (V3OnionServiceId.from_private_key k)), .success) ∧
      (s.next_result k).2.endpoint_private_key = some k
    else
      (s.next_result k).1 =
        some (rc, none, .runtime GoslingError.failure.code) ∧
      (s.next_result k).2.endpoint_private_key = none := by
  obtain ⟨si, st, bck, re, sck, ch', src, ci, cak, cr', epk, ca, cv, pv, av, chv⟩ := s
  simp only at hst hbc hre hsc hch hrc hci hak hcr hek
  subst hst
  subst hbc
  subst hre
  subst hsc
  subst hch
  subst hrc
  subst hci
  subst hak
  subst hcr
  subst hek
  by_cases hflags : (ca && cv && pv && av && chv) = true
  · simp [IdentityServer.next_result, hflags]
  · simp only [Bool.not_eq_true] at hflags
    simp [IdentityServer.next_result, hflags]

/-- Witness for C2 at a concrete input with all five flags true. -/
theorem identity_server_challenge_verification_reply_witness :
    (IdentityServer.next_result
        ⟨List.replicate 56 97, .challengeVerificationReady, some 1, some [101],
          some (List.replicate 32 5), some [], some 5,
          some (List.replicate 56 98), some (List.replicate 32 7), some [],
          none, true, true, true, true, true⟩ [9]).1 =
      some (5, some (.string (V3OnionServiceId.from_private_key [9])), .success) := by
  have h := identity_server_challenge_verification_reply
      ⟨List.replicate 56 97, .challengeVerificationReady, some 1, some [101],
        some (List.replicate 32 5), some [], some 5,
        some (List.replicate 56 98), some (List.replicate 32 7), some [],
        none, true, true, true, true, true⟩ [9]
      1 5 (List.replicate 56 98) [101] (List.replicate 32 5) [] []
      (List.replicate 32 7)
      rfl rfl rfl rfl rfl rfl rfl rfl rfl rfl
  simp only [if_true, Bool.and_self] at h
  exact h.1

end Gosling

namespace Gosling

theorem isBase32Byte_base32Char {n : Nat} (h : n < 32) :
    isBase32Byte (base32Char n) = true := by
  have key : ∀ m < 32, isBase32Byte (base32Char m) = true := by decide
  exact key n h

theorem isValid_from_private_key (k : Ed25519PrivateKey) :
    isValidServiceIdString (V3OnionServiceId.from_private_key k) = true := by
  unfold isValidServiceIdString V3OnionServiceId.from_private_key
    V3OnionServiceId.from_public_key Ed25519PublicKey.from_private_key
  rw [Bool.and_eq_true]
  constructor
  · simp [V3_SERVICE_ID_LENGTH]
  · rw [List.all_eq_true]
    intro c hc
    rw [List.mem_map] at hc
    obtain ⟨i, _, rfl⟩ := hc
    exact isBase32Byte_base32Char (Nat.mod_lt _ (by omega))

theorem from_string_from_private_key (k : Ed25519PrivateKey) :
    V3OnionServiceId.from_string (V3OnionServiceId.from_private_key k) =
      some (V3OnionServiceId.from_private_key k) := by
  simp [V3OnionServiceId.from_string, isValid_from_private_key]

/-- C1: a run in which the identity server reaches
`ChallengeVerificationReady` with all five verification flags true and its
deferred reply is delivered over the connected stream to the identity
client waiting for challenge verification.  The server replies Success with
the service-id string of the freshly generated endpoint key `k`, stores
`k`, and its next tick emits `HandshakeCompleted` carrying `k`; the client,
on receiving that reply for its `send_response` cookie, emits
`HandshakeCompleted` whose endpoint service id is exactly
`V3OnionServiceId.from_private_key k` — the id derived from the key the
server stored and carried in its own completed event. -/
theorem identity_handshake_service_id_agreement
    (s : IdentityServer) (k : Ed25519PrivateKey)
    (bc rc : RequestCookie) (cid : V3OnionServiceId) (ep sc : List Nat)
    (ch cr : BsonDocument) (ak : X25519PublicKey)
    (c : IdentityClient) (cbc fc : RequestCookie) (csc fcc : List Nat)
    (hst : s.state = .challengeVerificationReady)
    (hbc : s.begin_handshake_request_cookie = some bc)
    (hre : s.requested_endpoint = some ep)
    (hsc : s.server_cookie = some sc)
    (hch : s.endpoint_challenge = some ch)
    (hrc : s.send_response_request_cookie = some rc)
    (hci : s.client_identity = some cid)
    (hak : s.client_auth_key = some ak)
    (hcr : s.challenge_response = some cr)
    (hek : s.endpoint_private_key = none)
    (hf₁ : s.client_allowed = true)
    (hf₂ : s.client_requested_endpoint_valid = true)
    (hf₃ : s.client_proof_signature_valid = true)
    (hf₄ : s.client_auth_signature_valid = true)
    (hf₅ : s.challenge_response_valid = true)
    (hcst : c.state = .waitingForChallengeVerification)
    (hcbc : c.begin_handshake_request_cookie = some cbc)
    (hcsc : c.server_cookie = some csc)
    (hcer : c.endpoint_challenge_response = none)
    (hcrc : c.send_response_request_cookie = some rc) :
    (s.next_result k).1 =
      some (rc, some (.string (V3OnionServiceId.from_private_key k)), .success) ∧
    (s.next_result k).2.endpoint_private_key = some k ∧
    ((s.next_result k).2).update =
      .ok (some (.handshakeCompleted k ep cid ak),
           { (s.next_result k).2 with state := .handshakeComplete }) ∧
    c.update (some (.success rc (.string (V3OnionServiceId.from_private_key k))))
        fc fcc =
      .ok { event := some (.handshakeCompleted c.server_service_id
              (V3OnionServiceId.from_private_key k) c.requested_endpoint
              c.client_x25519_private)
            next := { c with endpoint_challenge_response := none
                             state := .handshakeComplete }
            calls := [] } := by
  obtain ⟨si, st, bck, re, sck, ch', src, ci, cak, cr', epk, ca, cv, pv, av, chv⟩ := s
  simp only at hst hbc hre hsc hch hrc hci hak hcr hek hf₁ hf₂ hf₃ hf₄ hf₅
  subst hst
  subst hbc
  subst hre
  subst hsc
  subst hch
  subst hrc
  subst hci
  subst hak
  subst hcr
  subst hek
  subst hf₁
  subst hf₂
  subst hf₃
  subst hf₄
  subst hf₅
  obtain ⟨cssid, cre, ccsid, cedk, cxk, cst, cbck, csck, cecr, csrc⟩ := c
  simp only at hcst hcbc hcsc hcer hcrc
  subst hcst
  subst hcbc
  subst hcsc
  subst hcer
  subst hcrc
  refine ⟨rfl, rfl, rfl, ?_⟩
  simp [IdentityClient.update, from_string_from_private_key]

/-- Witness for C1 at a concrete all-flags-true run. -/
theorem identity_handshake_service_id_agreement_witness :
    IdentityClient.update
        ⟨List.replicate 56 97, [101], List.replicate 56 98, [1], [2],
          .waitingForChallengeVerification, some 3,
          some (List.replicate 32 5), none, some 5⟩
        (some (.success 5 (.string (V3OnionServiceId.from_private_key [9])))) 11 [] =
      .ok { event := some (.handshakeCompleted (List.replicate 56 97)
              (V3OnionServiceId.from_private_key [9]) [101] [2])
            next := ⟨List.replicate 56 97, [101], List.replicate 56 98, [1], [2],
              .handshakeComplete, some 3, some (List.replicate 32 5), none, some 5⟩
            calls := [] } := by
  have h := identity_handshake_service_id_agreement
      ⟨List.replicate 56 97, .challengeVerificationReady, some 1, some [101],
        some (List.replicate 32 5), some [], some 5,
        some (List.replicate 56 98), some (List.replicate 32 7), some [],
        none, true, true, true, true, true⟩ [9]
      1 5 (List.replicate 56 98) [101] (List.replicate 32 5) [] []
      (List.replicate 32 7)
      ⟨List.replicate 56 97, [101], List.replicate 56 98, [1], [2],
        .waitingForChallengeVerification, some 3,
        some (List.replicate 32 5), none, some 5⟩
      3 11 (List.replicate 32 5) []
      rfl rfl rfl rfl rfl rfl rfl rfl rfl rfl
      rfl rfl rfl rfl rfl
      rfl rfl rfl rfl rfl
  exact h.2.2.2

end Gosling

namespace GoslingCrate

open Gosling

/-- C7: when the endpoint server's send_response verification fails (the
conjunction of client_allowed, client_requested_channel_valid and
client_proof_signature_valid after processing the call is false), the
`send_response` RPC is answered with a runtime error, `handshake_succeeded`
is recorded false, and the next `update` tick emits `HandshakeRejected`
carrying the three diagnostic flags. -/
theorem endpoint_server_send_response_failure_rejects
    (s : EndpointServer) (cc sigBytes : List Nat)
    (rq bc : RequestCookie) (cid : V3OnionServiceId)
    (chan : AsciiString) (sc : List Nat)
    (r : Except RpcError Bson × EndpointServer)
    (hst : s.state = .waitingForSendResponse)
    (hbc : s.begin_handshake_request_cookie = some bc)
    (hci : s.client_identity = some cid)
    (hch : s.requested_channel = some chan)
    (hsc : s.server_cookie = some sc)
    (hhs : s.handshake_succeeded = none)
    (hcc : cc.length = CLIENT_COOKIE_SIZE)
    (hsig : sigBytes.length = ED25519_SIGNATURE_SIZE)
    (hr : s.handle_send_response cc cid sigBytes = r)
    (hfail : (r.2.client_allowed && r.2.client_requested_channel_valid
        && r.2.client_proof_signature_valid) = false) :
    r.1 = .error .failure ∧
    r.2.handshake_succeeded = some false ∧
    r.2.update = .ok (some (.handshakeRejected r.2.client_allowed
        r.2.client_requested_channel_valid r.2.client_proof_signature_valid),
      { r.2 with state := .handshakeComplete }) ∧
    s.exec_function "send_response" 0
        [("client_cookie", .binary .generic cc),
         ("client_identity_proof_signature", .binary .generic sigBytes)]
        (some rq) = (.error (.runtime RpcError.failure.code), r.2) := by
  obtain ⟨si, aci, st, bck, ci, rch, sck, hsuc, ca, cv, pv⟩ := s
  simp only at hst hbc hci hch hsc hhs
  subst hst
  subst hbc
  subst hci
  subst hch
  subst hsc
  subst hhs
  subst hr
  have hexec :
      EndpointServer.exec_function
        ⟨si, aci, .waitingForSendResponse, some bc, some cid, some chan,
          some sc, none, ca, cv, pv⟩ "send_response" 0
        [("client_cookie", .binary .generic cc),
         ("client_identity_proof_signature", .binary .generic sigBytes)]
        (some rq) =
      (match EndpointServer.handle_send_response
          ⟨si, aci, .waitingForSendResponse, some bc, some cid, some chan,
            some sc, none, ca, cv, pv⟩ cc cid sigBytes with
       | (.ok result, s2) => (.ok (some result), s2)
       | (.error err, s2) => (.error (.runtime err.code), s2)) := by
    simp [EndpointServer.exec_function, docGet, hcc, hsig,
      Gosling.Ed25519Signature.from_raw]
  by_cases hv : isValidServiceIdString cid = true
  · by_cases hcond : (ca && cv && Gosling.Ed25519Signature.verify sigBytes
        (build_client_proof .goslingEndpoint chan cid si cc sc) cid) = true
    · exfalso
      simp [EndpointServer.handle_send_response,
        Gosling.Ed25519PublicKey.from_service_id, hv, hcond] at hfail
    · rw [Bool.not_eq_true] at hcond
      simp [EndpointServer.handle_send_response,
        Gosling.Ed25519PublicKey.from_service_id, hv, hcond] at hfail ⊢
      refine ⟨?_, ?_⟩
      · simp [EndpointServer.update]
      · rw [hexec]
        simp [EndpointServer.handle_send_response,
          Gosling.Ed25519PublicKey.from_service_id, hv, hcond]
  · have hv' : isValidServiceIdString cid = false := by
      rcases h : isValidServiceIdString cid with _ | _
      · rfl
      · exact absurd h hv
    simp [EndpointServer.handle_send_response,
      Gosling.Ed25519PublicKey.from_service_id, hv'] at hfail ⊢
    refine ⟨?_, ?_⟩
    · simp [EndpointServer.update]
    · rw [hexec]
      simp [EndpointServer.handle_send_response,
        Gosling.Ed25519PublicKey.from_service_id, hv']

end GoslingCrate

namespace GoslingCrate

set_option maxRecDepth 10000 in
/-- Witness for C7 at a concrete input: the stored client identity is not
the allowed client, so verification fails and `send_response` is answered
with `Failure`. -/
theorem endpoint_server_send_response_failure_rejects_witness :
    (EndpointServer.handle_send_response
        ⟨List.replicate 56 97, List.replicate 56 98, .waitingForSendResponse,
          some 3, some (List.replicate 56 99), some ⟨[99]⟩,
          some (List.replicate 32 1), none, false, true, false⟩
        (List.replicate 32 0) (List.replicate 56 99)
        (List.replicate 64 0)).1 = .error .failure :=
  (endpoint_server_send_response_failure_rejects
    ⟨List.replicate 56 97, List.replicate 56 98, .waitingForSendResponse,
      some 3, some (List.replicate 56 99), some ⟨[99]⟩,
      some (List.replicate 32 1), none, false, true, false⟩
    (List.replicate 32 0) (List.replicate 64 0) 7 3
    (List.replicate 56 99) ⟨[99]⟩ (List.replicate 32 1)
    (EndpointServer.handle_send_response
      ⟨List.replicate 56 97, List.replicate 56 98, .waitingForSendResponse,
        some 3, some (List.replicate 56 99), some ⟨[99]⟩,
        some (List.replicate 32 1), none, false, true, false⟩
      (List.replicate 32 0) (List.replicate 56 99) (List.replicate 64 0))
    rfl rfl rfl rfl rfl rfl (by decide) (by decide) rfl (by decide)).1

end GoslingCrate
